import Mathlib

/-!
Shallow embedding of the EVM instruction handlers of this repository:

* src/src/ethereum/frontier/vm/instructions/system.py
  (create, return_, call, callcode, selfdestruct)
* src/src/ethereum/dao_fork/vm/instructions/environment.py
  (address, balance, origin, caller, callvalue, calldataload, calldatasize,
   calldatacopy, codesize, codecopy, gasprice, extcodesize, extcodecopy)

Machine integers (U256, Uint, addresses) are embedded as Nat; byte strings as
List Nat; the mutable Evm frame as an explicit record that every handler
threads.  A Python statement that raises an exception is embedded as an
Except value whose error component carries the frame as mutated up to the
raise point (Python in-place mutation semantics).  Helper functions that the
two source files import from modules outside the source fragment
(stack, gas, memory, safe arithmetic, state interface) are modelled from the
spec, each with a doc comment saying so; the host functions process_message,
process_create_message, compute_contract_address and calculate_call_gas_cost
are taken as explicit function parameters of the handlers that use them,
following the capability-parameter style the spec prescribes for the
circular dependency (spec section 9).
-/

set_option maxRecDepth 10000
set_option exponentiation.threshold 300

namespace EvmSpec

/-- Errors raised by the EVM core (vm/error.py; spec section 7). -/
inductive EvmError where
  | OutOfGasError
  | StackUnderflowError
  | StackOverflowError
deriving DecidableEq

/-- A world-state account (spec section 3).  Storage is not consulted by any
of the embedded instructions, so it is omitted. -/
structure Account where
  nonce : Nat
  balance : Nat
  code : List Nat
deriving DecidableEq

/-- World state: a total map from addresses to accounts.  A missing account
is indistinguishable from the empty account (spec section 3), so a total
function is an exact model. -/
def AccountState : Type := Nat → Account

/-- Modelled from the spec: get_account of the state interface (spec
section 6); returns the (possibly empty) account at an address. -/
def get_account (st : AccountState) (addr : Nat) : Account := st addr

/-- Modelled from the spec: set_account_balance of the state interface
(spec section 6). -/
def set_account_balance (st : AccountState) (addr : Nat) (v : Nat) : AccountState :=
  fun a => if a = addr then { st a with balance := v } else st a

/-- Modelled from the spec: increment_nonce of the state interface
(spec section 6). -/
def increment_nonce (st : AccountState) (addr : Nat) : AccountState :=
  fun a => if a = addr then { st a with nonce := (st a).nonce + 1 } else st a

/-- Modelled from the spec: account_has_code_or_nonce of the state interface
(spec sections 4.5 and 6) — true when the account at the address has nonzero
nonce or nonzero code length. -/
def account_has_code_or_nonce (st : AccountState) (addr : Nat) : Bool :=
  (st addr).nonce != 0 || (st addr).code.length != 0

/-- Execution environment shared by every frame of a transaction
(the fields of env used by the embedded instructions). -/
structure Env where
  state : AccountState
  origin : Nat
  gas_price : Nat

/-- A message spawning one frame (spec section 3).  target and code_address
are none for CREATE frames. -/
structure Message where
  caller : Nat
  target : Option Nat
  gas : Nat
  value : Nat
  data : List Nat
  code : List Nat
  current_target : Nat
  depth : Nat
  code_address : Option Nat

/-- The mutable per-frame interpreter state (spec section 3), parameterized
by the type of finished child frames so that the recursive knot can be tied
below. -/
structure EvmCore (Child : Type) where
  pc : Nat
  stack : List Nat
  memory : List Nat
  gas_left : Nat
  output : List Nat
  running : Bool
  has_erred : Bool
  logs : List Nat
  accounts_to_delete : List Nat
  children : List Child
  message : Message
  env : Env
  code : List Nat

/-- The Evm frame type: an EvmCore whose children are themselves Evm frames. -/
inductive Evm where
  | mk : EvmCore Evm → Evm

/-- Projection from the recursive frame type to its record of fields. -/
def Evm.core : Evm → EvmCore Evm
  | .mk c => c

/-- Working frame type of the handlers. -/
abbrev Frame := EvmCore Evm

/-- An exception together with the frame as mutated up to the raise point. -/
abbrev Err := EvmError × Frame

/-- Result of one handler: the final frame, or an exception with the frame
at the raise point. -/
abbrev EvmResult := Except Err Frame

/-- One more than the largest U256. -/
def U256_CEIL : Nat := 2 ^ 256

/-- Gas constant (spec section 4.3). -/
def GAS_BASE : Nat := 2

/-- Gas constant (spec section 4.3). -/
def GAS_VERY_LOW : Nat := 3

/-- Gas constant (spec section 4.3): per 32-byte word copied. -/
def GAS_COPY : Nat := 3

/-- Gas constant (spec section 4.3). -/
def GAS_BALANCE : Nat := 20

/-- Gas constant (spec section 4.3). -/
def GAS_EXTERNAL : Nat := 20

/-- Gas constant (spec section 4.3). -/
def GAS_CREATE : Nat := 32000

/-- Gas constant (spec section 4.3). -/
def GAS_ZERO : Nat := 0

/-- Stipend added to a call's budget when value is nonzero (spec glossary). -/
def GAS_CALL_STIPEND : Nat := 2300

/-- Call / create depth ceiling (spec section 6). -/
def STACK_DEPTH_LIMIT : Nat := 1024

/-- Modelled from the spec: u256_safe_add of utils/safe_arithmetic.py (not
part of the source fragment; spec section 4.3) — overflow-checked addition
that raises the given exception when the sum leaves the U256 range. -/
def u256_safe_add (a b : Nat) (exception : EvmError) : Except EvmError Nat :=
  if a + b < U256_CEIL then .ok (a + b) else .error exception

/-- Modelled from the spec: u256_safe_multiply of utils/safe_arithmetic.py
(not part of the source fragment; spec section 4.3) — overflow-checked
multiplication that raises the given exception when the product leaves the
U256 range. -/
def u256_safe_multiply (a b : Nat) (exception : EvmError) : Except EvmError Nat :=
  if a * b < U256_CEIL then .ok (a * b) else .error exception

/-- Modelled from the spec: ceil32 of utils/numeric.py (not part of the
source fragment; spec section 4.2) — round up to a multiple of 32. -/
def ceil32 (n : Nat) : Nat :=
  if n % 32 = 0 then n else n + 32 - n % 32

/-- Big-endian bytes to Nat (U256.from_be_bytes; spec section 3). -/
def from_be_bytes (bs : List Nat) : Nat :=
  bs.foldl (fun acc b => acc * 256 + b) 0

/-- Python bytes.ljust: right-pad with zero bytes to the given length
(shorter-than-requested inputs only; a longer input is returned unchanged). -/
def ljust (bs : List Nat) (n : Nat) : List Nat :=
  bs ++ List.replicate (n - bs.length) 0

/-- Modelled from the spec: to_address of utils/address.py (not part of the
source fragment; spec section 3) — keep the low-order 20 bytes of a U256. -/
def to_address (w : Nat) : Nat := w % 2 ^ 160

/-- Modelled from the spec: pop of vm/stack.py (not part of the source
fragment; spec section 4.1) — remove and return the top of the stack,
raising StackUnderflowError on an empty stack.  The head of the list is the
top of the stack. -/
def pop (evm : Frame) : Except Err (Nat × Frame) :=
  match evm.stack with
  | [] => .error (.StackUnderflowError, evm)
  | x :: rest => .ok (x, { evm with stack := rest })

/-- Modelled from the spec: push of vm/stack.py (not part of the source
fragment; spec section 4.1) — push onto the stack, raising
StackOverflowError when the size would exceed 1024. -/
def push (evm : Frame) (v : Nat) : Except Err Frame :=
  if evm.stack.length < 1024 then .ok { evm with stack := v :: evm.stack }
  else .error (.StackOverflowError, evm)

/-- Modelled from the spec: subtract_gas of vm/gas.py (not part of the
source fragment; spec section 4.3) — if the cost exceeds gas_left, set
gas_left to 0 and raise OutOfGasError, else subtract the cost. -/
def subtract_gas (evm : Frame) (cost : Nat) : Except Err Frame :=
  if evm.gas_left < cost then .error (.OutOfGasError, { evm with gas_left := 0 })
  else .ok { evm with gas_left := evm.gas_left - cost }

/-- The byte length of memory after touching the region [offset, offset+size):
unchanged when size = 0, else the high-water mark ceil32 (offset + size)
(never shrinking).  Spec section 4.2. -/
def expanded_memory_length (memLen offset size : Nat) : Nat :=
  if size = 0 then memLen else max memLen (ceil32 (offset + size))

/-- Memory cost curve of the spec (section 4.2): 3 w + w^2 / 512 for w
32-byte words. -/
def memory_cost (byteLen : Nat) : Nat :=
  3 * (byteLen / 32) + (byteLen / 32) * (byteLen / 32) / 512

/-- The gas charged for touching the region [offset, offset+size): the delta
of the memory cost curve above the previous high-water cost.  Spec
section 4.2. -/
def memory_expansion_cost (memLen offset size : Nat) : Nat :=
  memory_cost (expanded_memory_length memLen offset size) - memory_cost memLen

/-- Modelled from the spec: touch_memory of vm/memory.py (not part of the
source fragment; spec section 4.2) — a no-op when size = 0; otherwise charge
the expansion cost delta and zero-extend memory to the new high-water mark. -/
def touch_memory (evm : Frame) (offset size : Nat) : Except Err Frame :=
  if size = 0 then .ok evm
  else
    let newLen := max evm.memory.length (ceil32 (offset + size))
    match subtract_gas evm (memory_cost newLen - memory_cost evm.memory.length) with
    | .error e => .error e
    | .ok evm2 =>
      .ok { evm2 with memory := evm2.memory ++ List.replicate (newLen - evm2.memory.length) 0 }

/-- Modelled from the spec: memory_read_bytes of vm/memory.py (not part of
the source fragment; spec section 4.2) — read size bytes starting at start
(touch_memory has already been called, so the region is in range). -/
def memory_read_bytes (evm : Frame) (start size : Nat) : List Nat :=
  (evm.memory.drop start).take size

/-- Overwrite the slice of m starting at start with v (in-range writes,
as after touch_memory). -/
def write_bytes (m : List Nat) (start : Nat) (v : List Nat) : List Nat :=
  m.take start ++ v ++ m.drop (start + v.length)

/-- Modelled from the spec: memory_write of vm/memory.py (not part of the
source fragment; spec section 4.2). -/
def memory_write (evm : Frame) (start : Nat) (v : List Nat) : Frame :=
  { evm with memory := write_bytes evm.memory start v }

/-- Modelled from the spec: calculate_message_call_gas_stipend of vm/gas.py
(not part of the source fragment; spec sections 4.5 and glossary) — 2300
when value is nonzero, else 0. -/
def calculate_message_call_gas_stipend (value : Nat) : Nat :=
  if value = 0 then 0 else GAS_CALL_STIPEND

/-- Lift an exception of a pure helper into a handler result, attaching the
frame at the raise point. -/
def liftE {α : Type} (evm : Frame) : Except EvmError α → Except Err α
  | .ok v => .ok v
  | .error e => .error (e, evm)

/-- ADDRESS handler, embedding dao_fork/vm/instructions/environment.py
(address).  U256.from_be_bytes of an address is the identity here because
addresses are already embedded as Nat. -/
def address (evm : Frame) : EvmResult := do
  let evm ← subtract_gas evm GAS_BASE
  let evm ← push evm evm.message.current_target
  pure { evm with pc := evm.pc + 1 }

/-- BALANCE handler, embedding dao_fork/vm/instructions/environment.py
(balance). -/
def balance (evm : Frame) : EvmResult := do
  let evm ← subtract_gas evm GAS_BALANCE
  let (w, evm) ← pop evm
  let evm ← push evm (get_account evm.env.state (to_address w)).balance
  pure { evm with pc := evm.pc + 1 }

/-- ORIGIN handler, embedding dao_fork/vm/instructions/environment.py
(origin). -/
def origin (evm : Frame) : EvmResult := do
  let evm ← subtract_gas evm GAS_BASE
  let evm ← push evm evm.env.origin
  pure { evm with pc := evm.pc + 1 }

/-- CALLER handler, embedding dao_fork/vm/instructions/environment.py
(caller). -/
def caller (evm : Frame) : EvmResult := do
  let evm ← subtract_gas evm GAS_BASE
  let evm ← push evm evm.message.caller
  pure { evm with pc := evm.pc + 1 }

/-- CALLVALUE handler, embedding dao_fork/vm/instructions/environment.py
(callvalue). -/
def callvalue (evm : Frame) : EvmResult := do
  let evm ← subtract_gas evm GAS_BASE
  let evm ← push evm evm.message.value
  pure { evm with pc := evm.pc + 1 }

/-- CALLDATALOAD handler, embedding dao_fork/vm/instructions/environment.py
(calldataload).  The popped index is converted to Uint in the source so that
start_index + 32 cannot wrap; Nat reproduces that exactly. -/
def calldataload (evm : Frame) : EvmResult := do
  let evm ← subtract_gas evm GAS_VERY_LOW
  let (start_index, evm) ← pop evm
  let value := (evm.message.data.drop start_index).take 32
  let value := ljust value 32
  let evm ← push evm (from_be_bytes value)
  pure { evm with pc := evm.pc + 1 }

/-- CALLDATASIZE handler, embedding dao_fork/vm/instructions/environment.py
(calldatasize). -/
def calldatasize (evm : Frame) : EvmResult := do
  let evm ← subtract_gas evm GAS_BASE
  let evm ← push evm evm.message.data.length
  pure { evm with pc := evm.pc + 1 }

/-- CALLDATACOPY handler, embedding dao_fork/vm/instructions/environment.py
(calldatacopy).  Note the source pops the three stack inputs before any gas
is charged. -/
def calldatacopy (evm : Frame) : EvmResult := do
  let (memory_start_index, evm) ← pop evm
  let (data_start_index, evm) ← pop evm
  let (size, evm) ← pop evm
  let words := ceil32 size / 32
  let copy_gas_cost ← liftE evm (u256_safe_multiply GAS_COPY words .OutOfGasError)
  let total_gas_cost ← liftE evm (u256_safe_add GAS_VERY_LOW copy_gas_cost .OutOfGasError)
  let evm ← subtract_gas evm total_gas_cost
  let evm ← touch_memory evm memory_start_index size
  let evm := { evm with pc := evm.pc + 1 }
  if size = 0 then
    pure evm
  else
    let value := (evm.message.data.drop data_start_index).take size
    let value := ljust value size
    pure (memory_write evm memory_start_index value)

/-- CODESIZE handler, embedding dao_fork/vm/instructions/environment.py
(codesize). -/
def codesize (evm : Frame) : EvmResult := do
  let evm ← subtract_gas evm GAS_BASE
  let evm ← push evm evm.code.length
  pure { evm with pc := evm.pc + 1 }

/-- CODECOPY handler, embedding dao_fork/vm/instructions/environment.py
(codecopy).  Note the source pops the three stack inputs before any gas is
charged. -/
def codecopy (evm : Frame) : EvmResult := do
  let (memory_start_index, evm) ← pop evm
  let (code_start_index, evm) ← pop evm
  let (size, evm) ← pop evm
  let words := ceil32 size / 32
  let copy_gas_cost ← liftE evm (u256_safe_multiply GAS_COPY words .OutOfGasError)
  let total_gas_cost ← liftE evm (u256_safe_add GAS_VERY_LOW copy_gas_cost .OutOfGasError)
  let evm ← subtract_gas evm total_gas_cost
  let evm ← touch_memory evm memory_start_index size
  let evm := { evm with pc := evm.pc + 1 }
  if size = 0 then
    pure evm
  else
    let value := (evm.code.drop code_start_index).take size
    let value := ljust value size
    pure (memory_write evm memory_start_index value)

/-- GASPRICE handler, embedding dao_fork/vm/instructions/environment.py
(gasprice). -/
def gasprice (evm : Frame) : EvmResult := do
  let evm ← subtract_gas evm GAS_BASE
  let evm ← push evm evm.env.gas_price
  pure { evm with pc := evm.pc + 1 }

/-- EXTCODESIZE handler, embedding dao_fork/vm/instructions/environment.py
(extcodesize). -/
def extcodesize (evm : Frame) : EvmResult := do
  let evm ← subtract_gas evm GAS_EXTERNAL
  let (w, evm) ← pop evm
  let evm ← push evm (get_account evm.env.state (to_address w)).code.length
  pure { evm with pc := evm.pc + 1 }

/-- EXTCODECOPY handler, embedding dao_fork/vm/instructions/environment.py
(extcodecopy).  Note the source pops the four stack inputs before any gas is
charged. -/
def extcodecopy (evm : Frame) : EvmResult := do
  let (addrW, evm) ← pop evm
  let addr := to_address addrW
  let (memory_start_index, evm) ← pop evm
  let (code_start_index, evm) ← pop evm
  let (size, evm) ← pop evm
  let words := ceil32 size / 32
  let copy_gas_cost ← liftE evm (u256_safe_multiply GAS_COPY words .OutOfGasError)
  let total_gas_cost ← liftE evm (u256_safe_add GAS_EXTERNAL copy_gas_cost .OutOfGasError)
  let evm ← subtract_gas evm total_gas_cost
  let evm ← touch_memory evm memory_start_index size
  let evm := { evm with pc := evm.pc + 1 }
  if size = 0 then
    pure evm
  else
    let code := (get_account evm.env.state addr).code
    let value := (code.drop code_start_index).take size
    let value := ljust value size
    pure (memory_write evm memory_start_index value)

/-- CREATE handler, embedding frontier/vm/instructions/system.py (create).
process_create_message and compute_contract_address are host functions
outside the source fragment, passed as parameters; U256.from_be_bytes of the
pushed contract address is the identity because addresses are embedded as
Nat.  The source zeroes the gas of the stored child record through the list
alias after crediting the parent; the pure embedding stores the child with
gas_left already zeroed, which yields the same frame on every path on which
the handler returns. -/
def create (process_create_message : Message → Env → Evm)
    (compute_contract_address : Nat → Nat → Nat) (evm : Frame) : EvmResult := do
  let (endowment, evm) ← pop evm
  let (memory_start_position, evm) ← pop evm
  let (memory_size, evm) ← pop evm
  let evm ← subtract_gas evm GAS_CREATE
  let evm ← touch_memory evm memory_start_position memory_size
  let call_data := memory_read_bytes evm memory_start_position memory_size
  let sender_address := evm.message.current_target
  let sender := get_account evm.env.state sender_address
  let evm := { evm with pc := evm.pc + 1 }
  if sender.balance < endowment then
    push evm 0
  else if sender.nonce = 2 ^ 64 - 1 then
    push evm 0
  else if evm.message.depth + 1 > STACK_DEPTH_LIMIT then
    push evm 0
  else
    let evm := { evm with env :=
      { evm.env with state := increment_nonce evm.env.state evm.message.current_target } }
    let create_message_gas := evm.gas_left
    let evm ← subtract_gas evm create_message_gas
    let contract_address := compute_contract_address sender_address
      ((get_account evm.env.state evm.message.current_target).nonce - 1)
    if account_has_code_or_nonce evm.env.state contract_address then
      push evm 0
    else
      let child_message : Message :=
        { caller := evm.message.current_target
          target := none
          gas := create_message_gas
          value := endowment
          data := []
          code := call_data
          current_target := contract_address
          depth := evm.message.depth + 1
          code_address := none }
      let child_evm := (process_create_message child_message evm.env).core
      let evm := { evm with
        env := child_evm.env
        children := evm.children ++ [Evm.mk { child_evm with gas_left := 0 }] }
      let evm ←
    (if child_evm.has_erred then
      push evm 0
    else
      push { evm with logs := evm.logs ++ child_evm.logs } child_evm.message.current_target)
      pure { evm with gas_left := child_evm.gas_left }

/-- RETURN handler, embedding frontier/vm/instructions/system.py
(return_). -/
def return_ (evm : Frame) : EvmResult := do
  let (memory_start_position, evm) ← pop evm
  let (memory_size, evm) ← pop evm
  let evm ← subtract_gas evm GAS_ZERO
  let evm ← touch_memory evm memory_start_position memory_size
  let evm := { evm with output := memory_read_bytes evm memory_start_position memory_size }
  pure { evm with running := false }

/-- CALL handler, embedding frontier/vm/instructions/system.py (call).
process_message and calculate_call_gas_cost are host functions outside the
source fragment, passed as parameters.  The source zeroes the gas of the
stored child record through the list alias after crediting the parent; the
pure embedding stores the child with gas_left already zeroed, which yields
the same frame on every path on which the handler returns. -/
def call (process_message : Message → Env → Evm)
    (calculate_call_gas_cost : AccountState → Nat → Nat → Nat → Nat)
    (evm : Frame) : EvmResult := do
  let (gas, evm) ← pop evm
  let (toW, evm) ← pop evm
  let to_ := to_address toW
  let (value, evm) ← pop evm
  let (memory_input_start_position, evm) ← pop evm
  let (memory_input_size, evm) ← pop evm
  let (memory_output_start_position, evm) ← pop evm
  let (memory_output_size, evm) ← pop evm
  let evm ← touch_memory evm memory_input_start_position memory_input_size
  let evm ← touch_memory evm memory_output_start_position memory_output_size
  let call_data := memory_read_bytes evm memory_input_start_position memory_input_size
  let call_gas_fee := calculate_call_gas_cost evm.env.state gas to_ value
  let message_call_gas_fee ← liftE evm
    (u256_safe_add gas (calculate_message_call_gas_stipend value) .OutOfGasError)
  let evm ← subtract_gas evm call_gas_fee
  let sender_balance := (get_account evm.env.state evm.message.current_target).balance
  let evm := { evm with pc := evm.pc + 1 }
  if sender_balance < value then do
    let evm ← push evm 0
    pure { evm with gas_left := evm.gas_left + message_call_gas_fee }
  else if evm.message.depth + 1 > STACK_DEPTH_LIMIT then do
    let evm ← push evm 0
    pure { evm with gas_left := evm.gas_left + message_call_gas_fee }
  else
    let code := (get_account evm.env.state to_).code
    let child_message : Message :=
      { caller := evm.message.current_target
        target := some to_
        gas := message_call_gas_fee
        value := value
        data := call_data
        code := code
        current_target := to_
        depth := evm.message.depth + 1
        code_address := some to_ }
    let child_evm := (process_message child_message evm.env).core
    let evm := { evm with
      env := child_evm.env
      children := evm.children ++ [Evm.mk { child_evm with gas_left := 0 }] }
    let evm ←
      (if child_evm.has_erred then
        push evm 0
      else
        push { evm with logs := evm.logs ++ child_evm.logs } 1)
    let actual_output_size := min memory_output_size child_evm.output.length
    let evm := memory_write evm memory_output_start_position
      (child_evm.output.take actual_output_size)
    pure { evm with gas_left := evm.gas_left + child_evm.gas_left }

/-- CALLCODE handler, embedding frontier/vm/instructions/system.py
(callcode); identical to call except that the executing account and target
stay the caller's current_target while the code is loaded from the popped
code_address. -/
def callcode (process_message : Message → Env → Evm)
    (calculate_call_gas_cost : AccountState → Nat → Nat → Nat → Nat)
    (evm : Frame) : EvmResult := do
  let (gas, evm) ← pop evm
  let (code_addressW, evm) ← pop evm
  let code_address := to_address code_addressW
  let (value, evm) ← pop evm
  let (memory_input_start_position, evm) ← pop evm
  let (memory_input_size, evm) ← pop evm
  let (memory_output_start_position, evm) ← pop evm
  let (memory_output_size, evm) ← pop evm
  let to_ := evm.message.current_target
  let evm ← touch_memory evm memory_input_start_position memory_input_size
  let evm ← touch_memory evm memory_output_start_position memory_output_size
  let call_data := memory_read_bytes evm memory_input_start_position memory_input_size
  let call_gas_fee := calculate_call_gas_cost evm.env.state gas to_ value
  let message_call_gas_fee ← liftE evm
    (u256_safe_add gas (calculate_message_call_gas_stipend value) .OutOfGasError)
  let evm ← subtract_gas evm call_gas_fee
  let sender_balance := (get_account evm.env.state evm.message.current_target).balance
  let evm := { evm with pc := evm.pc + 1 }
  if sender_balance < value then do
    let evm ← push evm 0
    pure { evm with gas_left := evm.gas_left + message_call_gas_fee }
  else if evm.message.depth + 1 > STACK_DEPTH_LIMIT then do
    let evm ← push evm 0
    pure { evm with gas_left := evm.gas_left + message_call_gas_fee }
  else
    let code := (get_account evm.env.state code_address).code
    let child_message : Message :=
      { caller := evm.message.current_target
        target := some to_
        gas := message_call_gas_fee
        value := value
        data := call_data
        code := code
        current_target := to_
        depth := evm.message.depth + 1
        code_address := some code_address }
    let child_evm := (process_message child_message evm.env).core
    let evm := { evm with
      env := child_evm.env
      children := evm.children ++ [Evm.mk { child_evm with gas_left := 0 }] }
    let evm ←
      (if child_evm.has_erred then
        push evm 0
      else
        push { evm with logs := evm.logs ++ child_evm.logs } 1)
    let actual_output_size := min memory_output_size child_evm.output.length
    let evm := memory_write evm memory_output_start_position
      (child_evm.output.take actual_output_size)
    pure { evm with gas_left := evm.gas_left + child_evm.gas_left }

/-- SELFDESTRUCT handler, embedding frontier/vm/instructions/system.py
(selfdestruct).  The transfer to the beneficiary happens before the
originator's balance is zeroed, so a self-beneficiary ends with balance 0;
no gas is charged at this fork. -/
def selfdestruct (evm : Frame) : EvmResult := do
  let (w, evm) ← pop evm
  let beneficiary := to_address w
  let originator := evm.message.current_target
  let beneficiary_balance := (get_account evm.env.state beneficiary).balance
  let originator_balance := (get_account evm.env.state originator).balance
  let evm := { evm with env := { evm.env with
    state := set_account_balance evm.env.state beneficiary
      (beneficiary_balance + originator_balance) } }
  let evm := { evm with env := { evm.env with
    state := set_account_balance evm.env.state originator 0 } }
  let evm := { evm with accounts_to_delete := evm.accounts_to_delete.insert originator }
  pure { evm with running := false }

/-- The empty account (spec section 3). -/
def EMPTY_ACCOUNT : Account := { nonce := 0, balance := 0, code := [] }

/-- A message with all fields zero or empty, used to build concrete frames. -/
def baseMessage : Message :=
  { caller := 0, target := none, gas := 0, value := 0, data := [], code := []
    current_target := 0, depth := 0, code_address := none }

/-- An environment whose world state is all empty accounts. -/
def baseEnv : Env := { state := fun _ => EMPTY_ACCOUNT, origin := 0, gas_price := 0 }

/-- A fresh frame with empty stack, memory and zero gas, used to build
concrete frames for evaluation. -/
def baseFrame : Frame :=
  { pc := 0, stack := [], memory := [], gas_left := 0, output := [], running := true
    has_erred := false, logs := [], accounts_to_delete := [], children := []
    message := baseMessage, env := baseEnv, code := [] }

/-- The world state produced by the two balance writes of SELFDESTRUCT:
first the originator balance is added to the beneficiary balance, then the
originator balance is zeroed.  Abbreviation used by statements below. -/
def selfdestruct_state (st : AccountState) (beneficiary originator : Nat) : AccountState :=
  set_account_balance
    (set_account_balance st beneficiary
      ((get_account st beneficiary).balance + (get_account st originator).balance))
    originator 0

/-- Concrete world state for the SELFDESTRUCT witness: account 5 holds
balance 100, every other account is empty. -/
def exStateC5 : AccountState :=
  fun a => if a = 5 then { nonce := 0, balance := 100, code := [] } else EMPTY_ACCOUNT

/-- Concrete frame for the SELFDESTRUCT witness: executing account 5
self-destructs to itself (stack holds beneficiary 5). -/
def exFrameC5 : Frame :=
  { baseFrame with
    stack := [5]
    gas_left := 9
    message := { baseMessage with current_target := 5 }
    env := { baseEnv with state := exStateC5 } }

/-- Formulation of the CALLDATALOAD result following the words of the spec:
the big-endian interpretation of the 32 bytes of calldata starting at byte
i, where a byte beyond the end of calldata reads as zero. -/
def spec_calldata_word (data : List Nat) (i : Nat) : Nat :=
  from_be_bytes ((List.range 32).map fun j => data.getD (i + j) 0)

/-- Concrete world state for the CREATE insufficient-balance witness:
account 5 holds balance 10. -/
def exStateC4 : AccountState :=
  fun a => if a = 5 then { nonce := 0, balance := 10, code := [] } else EMPTY_ACCOUNT

/-- Concrete frame for the CREATE insufficient-balance witness: account 5
runs CREATE with endowment 11 against its balance 10. -/
def exFrameC4 : Frame :=
  { baseFrame with
    stack := [11, 0, 0]
    gas_left := 40000
    message := { baseMessage with current_target := 5 }
    env := { baseEnv with state := exStateC4 } }

/-- Concrete world state for the CREATE collision witness: account 5 is the
creator (balance 50), account 77 already exists with nonce 1. -/
def exStateC3 : AccountState :=
  fun a =>
    if a = 5 then { nonce := 0, balance := 50, code := [] }
    else if a = 77 then { nonce := 1, balance := 0, code := [] }
    else EMPTY_ACCOUNT

/-- Concrete frame for the CREATE collision witness: account 5 runs CREATE
with 33000 gas; the contract address computes to the occupied account 77. -/
def exFrameC3 : Frame :=
  { baseFrame with
    stack := [0, 0, 0]
    gas_left := 33000
    message := { baseMessage with current_target := 5 }
    env := { baseEnv with state := exStateC3 } }

/-- Characterization of touch_memory on success: when the expansion cost is
covered, it charges exactly that cost and zero-extends memory to the new
high-water mark. -/
theorem touch_memory_ok (evm : Frame) (offset size : Nat)
    (h : memory_expansion_cost evm.memory.length offset size ≤ evm.gas_left) :
    touch_memory evm offset size = .ok { evm with
      gas_left := evm.gas_left - memory_expansion_cost evm.memory.length offset size
      memory := evm.memory ++ List.replicate
        (expanded_memory_length evm.memory.length offset size - evm.memory.length) 0 } := by
  by_cases hs : size = 0
  · subst hs
    simp [touch_memory, memory_expansion_cost, expanded_memory_length]
  · have h' : memory_cost (max evm.memory.length (ceil32 (offset + size))) -
        memory_cost evm.memory.length ≤ evm.gas_left := by
      simpa [memory_expansion_cost, expanded_memory_length, hs] using h
    simp [touch_memory, subtract_gas, hs, memory_expansion_cost, expanded_memory_length,
      Nat.not_lt.mpr h']

/-- Inversion of touch_memory on success: the result frame is the input with
the expansion cost charged and memory zero-extended, and the cost was
covered. -/
theorem touch_memory_ok_elim (evm e' : Frame) (offset size : Nat)
    (h : touch_memory evm offset size = .ok e') :
    memory_expansion_cost evm.memory.length offset size ≤ evm.gas_left ∧
    e' = { evm with
      gas_left := evm.gas_left - memory_expansion_cost evm.memory.length offset size
      memory := evm.memory ++ List.replicate
        (expanded_memory_length evm.memory.length offset size - evm.memory.length) 0 } := by
  by_cases hs : size = 0
  · subst hs
    simp only [touch_memory, if_true, reduceIte, Except.ok.injEq] at h
    subst h
    simp [memory_expansion_cost, expanded_memory_length]
  · by_cases hg : evm.gas_left <
        memory_cost (max evm.memory.length (ceil32 (offset + size))) -
          memory_cost evm.memory.length
    · exfalso
      simp [touch_memory, subtract_gas, hs, hg] at h
    · simp only [touch_memory, subtract_gas, hs, if_neg, if_false, hg, Except.ok.injEq] at h
      constructor
      · simpa [memory_expansion_cost, expanded_memory_length, hs] using Nat.le_of_not_lt hg
      · rw [← h]
        simp [memory_expansion_cost, expanded_memory_length, hs]


/-- On an OutOfGas halt of address, the stack and pc are those at entry. -/
theorem address_oog (evm e' : Frame)
    (h : address evm = .error (.OutOfGasError, e')) :
    e'.stack = evm.stack ∧ e'.pc = evm.pc := by
  by_cases hg : evm.gas_left < GAS_BASE
  · simp only [address, Bind.bind, Except.bind, subtract_gas, if_pos hg,
      Except.error.injEq, Prod.mk.injEq, true_and] at h
    rw [← h]
    exact ⟨rfl, rfl⟩
  · by_cases hp : evm.stack.length < 1024 <;>
      simp [address, Bind.bind, Except.bind, subtract_gas, hg, push, hp,
        Pure.pure, Except.pure] at h

/-- On an OutOfGas halt of origin, the stack and pc are those at entry. -/
theorem origin_oog (evm e' : Frame)
    (h : origin evm = .error (.OutOfGasError, e')) :
    e'.stack = evm.stack ∧ e'.pc = evm.pc := by
  by_cases hg : evm.gas_left < GAS_BASE
  · simp only [origin, Bind.bind, Except.bind, subtract_gas, if_pos hg,
      Except.error.injEq, Prod.mk.injEq, true_and] at h
    rw [← h]
    exact ⟨rfl, rfl⟩
  · by_cases hp : evm.stack.length < 1024 <;>
      simp [origin, Bind.bind, Except.bind, subtract_gas, hg, push, hp,
        Pure.pure, Except.pure] at h

/-- On an OutOfGas halt of caller, the stack and pc are those at entry. -/
theorem caller_oog (evm e' : Frame)
    (h : caller evm = .error (.OutOfGasError, e')) :
    e'.stack = evm.stack ∧ e'.pc = evm.pc := by
  by_cases hg : evm.gas_left < GAS_BASE
  · simp only [caller, Bind.bind, Except.bind, subtract_gas, if_pos hg,
      Except.error.injEq, Prod.mk.injEq, true_and] at h
    rw [← h]
    exact ⟨rfl, rfl⟩
  · by_cases hp : evm.stack.length < 1024 <;>
      simp [caller, Bind.bind, Except.bind, subtract_gas, hg, push, hp,
        Pure.pure, Except.pure] at h

/-- On an OutOfGas halt of callvalue, the stack and pc are those at entry. -/
theorem callvalue_oog (evm e' : Frame)
    (h : callvalue evm = .error (.OutOfGasError, e')) :
    e'.stack = evm.stack ∧ e'.pc = evm.pc := by
  by_cases hg : evm.gas_left < GAS_BASE
  · simp only [callvalue, Bind.bind, Except.bind, subtract_gas, if_pos hg,
      Except.error.injEq, Prod.mk.injEq, true_and] at h
    rw [← h]
    exact ⟨rfl, rfl⟩
  · by_cases hp : evm.stack.length < 1024 <;>
      simp [callvalue, Bind.bind, Except.bind, subtract_gas, hg, push, hp,
        Pure.pure, Except.pure] at h

/-- On an OutOfGas halt of calldatasize, the stack and pc are those at entry. -/
theorem calldatasize_oog (evm e' : Frame)
    (h : calldatasize evm = .error (.OutOfGasError, e')) :
    e'.stack = evm.stack ∧ e'.pc = evm.pc := by
  by_cases hg : evm.gas_left < GAS_BASE
  · simp only [calldatasize, Bind.bind, Except.bind, subtract_gas, if_pos hg,
      Except.error.injEq, Prod.mk.injEq, true_and] at h
    rw [← h]
    exact ⟨rfl, rfl⟩
  · by_cases hp : evm.stack.length < 1024 <;>
      simp [calldatasize, Bind.bind, Except.bind, subtract_gas, hg, push, hp,
        Pure.pure, Except.pure] at h

/-- On an OutOfGas halt of codesize, the stack and pc are those at entry. -/
theorem codesize_oog (evm e' : Frame)
    (h : codesize evm = .error (.OutOfGasError, e')) :
    e'.stack = evm.stack ∧ e'.pc = evm.pc := by
  by_cases hg : evm.gas_left < GAS_BASE
  · simp only [codesize, Bind.bind, Except.bind, subtract_gas, if_pos hg,
      Except.error.injEq, Prod.mk.injEq, true_and] at h
    rw [← h]
    exact ⟨rfl, rfl⟩
  · by_cases hp : evm.stack.length < 1024 <;>
      simp [codesize, Bind.bind, Except.bind, subtract_gas, hg, push, hp,
        Pure.pure, Except.pure] at h

/-- On an OutOfGas halt of gasprice, the stack and pc are those at entry. -/
theorem gasprice_oog (evm e' : Frame)
    (h : gasprice evm = .error (.OutOfGasError, e')) :
    e'.stack = evm.stack ∧ e'.pc = evm.pc := by
  by_cases hg : evm.gas_left < GAS_BASE
  · simp only [gasprice, Bind.bind, Except.bind, subtract_gas, if_pos hg,
      Except.error.injEq, Prod.mk.injEq, true_and] at h
    rw [← h]
    exact ⟨rfl, rfl⟩
  · by_cases hp : evm.stack.length < 1024 <;>
      simp [gasprice, Bind.bind, Except.bind, subtract_gas, hg, push, hp,
        Pure.pure, Except.pure] at h

/-- On an OutOfGas halt of balance, the stack and pc are those at entry. -/
theorem balance_oog (evm e' : Frame)
    (h : balance evm = .error (.OutOfGasError, e')) :
    e'.stack = evm.stack ∧ e'.pc = evm.pc := by
  by_cases hg : evm.gas_left < GAS_BALANCE
  · simp only [balance, Bind.bind, Except.bind, subtract_gas, if_pos hg,
      Except.error.injEq, Prod.mk.injEq, true_and] at h
    rw [← h]
    exact ⟨rfl, rfl⟩
  · rcases hs : evm.stack with _ | ⟨x, s⟩
    · simp [balance, Bind.bind, Except.bind, subtract_gas, hg, pop, hs] at h
    · by_cases hp : s.length < 1024 <;>
        simp [balance, Bind.bind, Except.bind, subtract_gas, hg, pop, push, hs, hp,
          Pure.pure, Except.pure] at h

/-- On an OutOfGas halt of extcodesize, the stack and pc are those at entry. -/
theorem extcodesize_oog (evm e' : Frame)
    (h : extcodesize evm = .error (.OutOfGasError, e')) :
    e'.stack = evm.stack ∧ e'.pc = evm.pc := by
  by_cases hg : evm.gas_left < GAS_EXTERNAL
  · simp only [extcodesize, Bind.bind, Except.bind, subtract_gas, if_pos hg,
      Except.error.injEq, Prod.mk.injEq, true_and] at h
    rw [← h]
    exact ⟨rfl, rfl⟩
  · rcases hs : evm.stack with _ | ⟨x, s⟩
    · simp [extcodesize, Bind.bind, Except.bind, subtract_gas, hg, pop, hs] at h
    · by_cases hp : s.length < 1024 <;>
        simp [extcodesize, Bind.bind, Except.bind, subtract_gas, hg, pop, push, hs, hp,
          Pure.pure, Except.pure] at h

/-- On an OutOfGas halt of calldataload, the stack and pc are those at entry. -/
theorem calldataload_oog (evm e' : Frame)
    (h : calldataload evm = .error (.OutOfGasError, e')) :
    e'.stack = evm.stack ∧ e'.pc = evm.pc := by
  by_cases hg : evm.gas_left < GAS_VERY_LOW
  · simp only [calldataload, Bind.bind, Except.bind, subtract_gas, if_pos hg,
      Except.error.injEq, Prod.mk.injEq, true_and] at h
    rw [← h]
    exact ⟨rfl, rfl⟩
  · rcases hs : evm.stack with _ | ⟨x, s⟩
    · simp [calldataload, Bind.bind, Except.bind, subtract_gas, hg, pop, hs] at h
    · by_cases hp : s.length < 1024 <;>
        simp [calldataload, Bind.bind, Except.bind, subtract_gas, hg, pop, push, hs, hp,
          Pure.pure, Except.pure] at h


/-- On an OutOfGas halt of calldatacopy, the three popped inputs are gone
from the stack (they were consumed before gas was charged) and pc is
unchanged. -/
theorem calldatacopy_oog (evm e' : Frame)
    (h : calldatacopy evm = .error (.OutOfGasError, e')) :
    e'.stack = evm.stack.drop 3 ∧ e'.pc = evm.pc := by
  rcases hs : evm.stack with _ | ⟨a, _ | ⟨b, _ | ⟨c, rest⟩⟩⟩
  · simp [calldatacopy, Bind.bind, Except.bind, pop, hs] at h
  · simp [calldatacopy, Bind.bind, Except.bind, pop, hs] at h
  · simp [calldatacopy, Bind.bind, Except.bind, pop, hs] at h
  · by_cases hm : GAS_COPY * (ceil32 c / 32) < U256_CEIL
    · by_cases ha : GAS_VERY_LOW + GAS_COPY * (ceil32 c / 32) < U256_CEIL
      · by_cases hg : evm.gas_left < GAS_VERY_LOW + GAS_COPY * (ceil32 c / 32)
        · simp only [calldatacopy, Bind.bind, Except.bind, pop, hs,
            u256_safe_multiply, if_pos hm, liftE, u256_safe_add, if_pos ha,
            subtract_gas, if_pos hg, Except.error.injEq, Prod.mk.injEq, true_and] at h
          cases h
          simp [hs]
        · by_cases hc : c = 0
          · subst hc
            simp [calldatacopy, Bind.bind, Except.bind, pop, hs, u256_safe_multiply,
              hm, liftE, u256_safe_add, ha, subtract_gas, hg, touch_memory,
              Pure.pure, Except.pure] at h
          · by_cases htg : evm.gas_left - (GAS_VERY_LOW + GAS_COPY * (ceil32 c / 32)) <
                memory_cost (max evm.memory.length (ceil32 (a + c))) -
                  memory_cost evm.memory.length
            · simp only [calldatacopy, Bind.bind, Except.bind, pop, hs,
                u256_safe_multiply, if_pos hm, liftE, u256_safe_add, if_pos ha,
                subtract_gas, if_neg hg, touch_memory, if_neg hc, if_pos htg,
                Except.error.injEq, Prod.mk.injEq, true_and] at h
              cases h
              simp [hs]
            · simp [calldatacopy, Bind.bind, Except.bind, pop, hs, u256_safe_multiply,
                hm, liftE, u256_safe_add, ha, subtract_gas, hg, touch_memory, hc, htg,
                memory_write, Pure.pure, Except.pure] at h
      · simp only [calldatacopy, Bind.bind, Except.bind, pop, hs,
          u256_safe_multiply, if_pos hm, liftE, u256_safe_add, if_neg ha,
          Except.error.injEq, Prod.mk.injEq, true_and] at h
        cases h
        simp [hs]
    · simp only [calldatacopy, Bind.bind, Except.bind, pop, hs,
        u256_safe_multiply, if_neg hm, liftE,
        Except.error.injEq, Prod.mk.injEq, true_and] at h
      cases h
      simp [hs]


/-- On an OutOfGas halt of codecopy, the three popped inputs are gone from
the stack (they were consumed before gas was charged) and pc is unchanged. -/
theorem codecopy_oog (evm e' : Frame)
    (h : codecopy evm = .error (.OutOfGasError, e')) :
    e'.stack = evm.stack.drop 3 ∧ e'.pc = evm.pc := by
  rcases hs : evm.stack with _ | ⟨a, _ | ⟨b, _ | ⟨c, rest⟩⟩⟩
  · simp [codecopy, Bind.bind, Except.bind, pop, hs] at h
  · simp [codecopy, Bind.bind, Except.bind, pop, hs] at h
  · simp [codecopy, Bind.bind, Except.bind, pop, hs] at h
  · by_cases hm : GAS_COPY * (ceil32 c / 32) < U256_CEIL
    · by_cases ha : GAS_VERY_LOW + GAS_COPY * (ceil32 c / 32) < U256_CEIL
      · by_cases hg : evm.gas_left < GAS_VERY_LOW + GAS_COPY * (ceil32 c / 32)
        · simp only [codecopy, Bind.bind, Except.bind, pop, hs,
            u256_safe_multiply, if_pos hm, liftE, u256_safe_add, if_pos ha,
            subtract_gas, if_pos hg, Except.error.injEq, Prod.mk.injEq, true_and] at h
          cases h
          simp [hs]
        · by_cases hc : c = 0
          · subst hc
            simp [codecopy, Bind.bind, Except.bind, pop, hs, u256_safe_multiply,
              hm, liftE, u256_safe_add, ha, subtract_gas, hg, touch_memory,
              Pure.pure, Except.pure] at h
          · by_cases htg : evm.gas_left - (GAS_VERY_LOW + GAS_COPY * (ceil32 c / 32)) <
                memory_cost (max evm.memory.length (ceil32 (a + c))) -
                  memory_cost evm.memory.length
            · simp only [codecopy, Bind.bind, Except.bind, pop, hs,
                u256_safe_multiply, if_pos hm, liftE, u256_safe_add, if_pos ha,
                subtract_gas, if_neg hg, touch_memory, if_neg hc, if_pos htg,
                Except.error.injEq, Prod.mk.injEq, true_and] at h
              cases h
              simp [hs]
            · simp [codecopy, Bind.bind, Except.bind, pop, hs, u256_safe_multiply,
                hm, liftE, u256_safe_add, ha, subtract_gas, hg, touch_memory, hc, htg,
                memory_write, Pure.pure, Except.pure] at h
      · simp only [codecopy, Bind.bind, Except.bind, pop, hs,
          u256_safe_multiply, if_pos hm, liftE, u256_safe_add, if_neg ha,
          Except.error.injEq, Prod.mk.injEq, true_and] at h
        cases h
        simp [hs]
    · simp only [codecopy, Bind.bind, Except.bind, pop, hs,
        u256_safe_multiply, if_neg hm, liftE,
        Except.error.injEq, Prod.mk.injEq, true_and] at h
      cases h
      simp [hs]

/-- On an OutOfGas halt of extcodecopy, the four popped inputs are gone from
the stack (they were consumed before gas was charged) and pc is unchanged. -/
theorem extcodecopy_oog (evm e' : Frame)
    (h : extcodecopy evm = .error (.OutOfGasError, e')) :
    e'.stack = evm.stack.drop 4 ∧ e'.pc = evm.pc := by
  rcases hs : evm.stack with _ | ⟨d, _ | ⟨a, _ | ⟨b, _ | ⟨c, rest⟩⟩⟩⟩
  · simp [extcodecopy, Bind.bind, Except.bind, pop, hs] at h
  · simp [extcodecopy, Bind.bind, Except.bind, pop, hs] at h
  · simp [extcodecopy, Bind.bind, Except.bind, pop, hs] at h
  · simp [extcodecopy, Bind.bind, Except.bind, pop, hs] at h
  · by_cases hm : GAS_COPY * (ceil32 c / 32) < U256_CEIL
    · by_cases ha : GAS_EXTERNAL + GAS_COPY * (ceil32 c / 32) < U256_CEIL
      · by_cases hg : evm.gas_left < GAS_EXTERNAL + GAS_COPY * (ceil32 c / 32)
        · simp only [extcodecopy, Bind.bind, Except.bind, pop, hs,
            u256_safe_multiply, if_pos hm, liftE, u256_safe_add, if_pos ha,
            subtract_gas, if_pos hg, Except.error.injEq, Prod.mk.injEq, true_and] at h
          cases h
          simp [hs]
        · by_cases hc : c = 0
          · subst hc
            simp [extcodecopy, Bind.bind, Except.bind, pop, hs, u256_safe_multiply,
              hm, liftE, u256_safe_add, ha, subtract_gas, hg, touch_memory,
              Pure.pure, Except.pure] at h
          · by_cases htg : evm.gas_left - (GAS_EXTERNAL + GAS_COPY * (ceil32 c / 32)) <
                memory_cost (max evm.memory.length (ceil32 (a + c))) -
                  memory_cost evm.memory.length
            · simp only [extcodecopy, Bind.bind, Except.bind, pop, hs,
                u256_safe_multiply, if_pos hm, liftE, u256_safe_add, if_pos ha,
                subtract_gas, if_neg hg, touch_memory, if_neg hc, if_pos htg,
                Except.error.injEq, Prod.mk.injEq, true_and] at h
              cases h
              simp [hs]
            · simp [extcodecopy, Bind.bind, Except.bind, pop, hs, u256_safe_multiply,
                hm, liftE, u256_safe_add, ha, subtract_gas, hg, touch_memory, hc, htg,
                memory_write, Pure.pure, Except.pure] at h
      · simp only [extcodecopy, Bind.bind, Except.bind, pop, hs,
          u256_safe_multiply, if_pos hm, liftE, u256_safe_add, if_neg ha,
          Except.error.injEq, Prod.mk.injEq, true_and] at h
        cases h
        simp [hs]
    · simp only [extcodecopy, Bind.bind, Except.bind, pop, hs,
        u256_safe_multiply, if_neg hm, liftE,
        Except.error.injEq, Prod.mk.injEq, true_and] at h
      cases h
      simp [hs]


/-- C2 (corrected): for the ten environment opcodes that are not copy
opcodes (ADDRESS, BALANCE, ORIGIN, CALLER, CALLVALUE, CALLDATALOAD,
CALLDATASIZE, CODESIZE, GASPRICE, EXTCODESIZE) gas is charged before any
stack input is popped, so on an OutOfGas halt the stack and pc are exactly
those at opcode entry; CALLDATACOPY, CODECOPY and EXTCODECOPY instead pop
their three (respectively four) stack inputs before charging gas, so on an
OutOfGas halt the stack has exactly those inputs removed (pc still not
advanced). -/
theorem env_opcodes_gas_charge_order (evm e' : Frame) :
    ((address evm = .error (.OutOfGasError, e') → e'.stack = evm.stack ∧ e'.pc = evm.pc) ∧
     (balance evm = .error (.OutOfGasError, e') → e'.stack = evm.stack ∧ e'.pc = evm.pc) ∧
     (origin evm = .error (.OutOfGasError, e') → e'.stack = evm.stack ∧ e'.pc = evm.pc) ∧
     (caller evm = .error (.OutOfGasError, e') → e'.stack = evm.stack ∧ e'.pc = evm.pc) ∧
     (callvalue evm = .error (.OutOfGasError, e') → e'.stack = evm.stack ∧ e'.pc = evm.pc) ∧
     (calldataload evm = .error (.OutOfGasError, e') → e'.stack = evm.stack ∧ e'.pc = evm.pc) ∧
     (calldatasize evm = .error (.OutOfGasError, e') → e'.stack = evm.stack ∧ e'.pc = evm.pc) ∧
     (codesize evm = .error (.OutOfGasError, e') → e'.stack = evm.stack ∧ e'.pc = evm.pc) ∧
     (gasprice evm = .error (.OutOfGasError, e') → e'.stack = evm.stack ∧ e'.pc = evm.pc) ∧
     (extcodesize evm = .error (.OutOfGasError, e') → e'.stack = evm.stack ∧ e'.pc = evm.pc)) ∧
    ((calldatacopy evm = .error (.OutOfGasError, e') →
        e'.stack = evm.stack.drop 3 ∧ e'.pc = evm.pc) ∧
     (codecopy evm = .error (.OutOfGasError, e') →
        e'.stack = evm.stack.drop 3 ∧ e'.pc = evm.pc) ∧
     (extcodecopy evm = .error (.OutOfGasError, e') →
        e'.stack = evm.stack.drop 4 ∧ e'.pc = evm.pc)) :=
  ⟨⟨fun h => address_oog evm e' h, fun h => balance_oog evm e' h,
    fun h => origin_oog evm e' h, fun h => caller_oog evm e' h,
    fun h => callvalue_oog evm e' h, fun h => calldataload_oog evm e' h,
    fun h => calldatasize_oog evm e' h, fun h => codesize_oog evm e' h,
    fun h => gasprice_oog evm e' h, fun h => extcodesize_oog evm e' h⟩,
   ⟨fun h => calldatacopy_oog evm e' h, fun h => codecopy_oog evm e' h,
    fun h => extcodecopy_oog evm e' h⟩⟩

/-- Witness for env_opcodes_gas_charge_order: a concrete BALANCE execution
with 1 gas halts with OutOfGas and leaves the entry stack [7] and pc 3
untouched. -/
theorem env_opcodes_gas_charge_order_witness :
    balance ({ baseFrame with stack := [7], gas_left := 1, pc := 3 } : Frame) =
      .error (.OutOfGasError, { baseFrame with stack := [7], gas_left := 0, pc := 3 }) ∧
    ({ baseFrame with stack := [7], gas_left := 0, pc := 3 } : Frame).stack =
      ({ baseFrame with stack := [7], gas_left := 1, pc := 3 } : Frame).stack ∧
    ({ baseFrame with stack := [7], gas_left := 0, pc := 3 } : Frame).pc =
      ({ baseFrame with stack := [7], gas_left := 1, pc := 3 } : Frame).pc :=
  ⟨rfl, (env_opcodes_gas_charge_order
    ({ baseFrame with stack := [7], gas_left := 1, pc := 3 } : Frame)
    ({ baseFrame with stack := [7], gas_left := 0, pc := 3 } : Frame)).1.2.1 rfl⟩

/-- Counterexample to C2 as stated: CALLDATACOPY pops its three stack
inputs before charging gas, so a concrete run with stack [0, 0, 0] and only
1 gas halts with OutOfGas while the stack at the halt point is empty, not
the entry stack. -/
theorem calldatacopy_oog_pops_before_charge :
    calldatacopy ({ baseFrame with stack := [0, 0, 0], gas_left := 1, pc := 5 } : Frame) =
      .error (.OutOfGasError, { baseFrame with stack := [], gas_left := 0, pc := 5 }) ∧
    ({ baseFrame with stack := [], gas_left := 0, pc := 5 } : Frame).stack ≠
      ({ baseFrame with stack := [0, 0, 0], gas_left := 1, pc := 5 } : Frame).stack := by
  exact ⟨rfl, by simp⟩

/-- C6: CALLDATACOPY whose popped size argument is 0, with at least
GAS_VERY_LOW = 3 gas left, charges exactly 3 gas, leaves memory (length and
contents) untouched, copies nothing, and advances pc by one. -/
theorem calldatacopy_zero_size (evm : Frame) (dst src : Nat) (rest : List Nat)
    (hstack : evm.stack = dst :: src :: 0 :: rest)
    (hgas : GAS_VERY_LOW ≤ evm.gas_left) :
    calldatacopy evm = .ok { evm with
      stack := rest
      gas_left := evm.gas_left - GAS_VERY_LOW
      pc := evm.pc + 1 } := by
  have h3 : ¬ evm.gas_left < 3 := by
    simpa [GAS_VERY_LOW] using Nat.not_lt.mpr hgas
  simp [calldatacopy, Bind.bind, Except.bind, pop, hstack, Pure.pure, Except.pure,
    ceil32, u256_safe_multiply, u256_safe_add, U256_CEIL, GAS_COPY, GAS_VERY_LOW,
    liftE, subtract_gas, touch_memory, h3]

/-- Witness for calldatacopy_zero_size: the spec scenario stack [5, 99, 0]
with 10 gas charges 3 gas, pops the three inputs, and advances pc. -/
theorem calldatacopy_zero_size_witness :
    GAS_VERY_LOW ≤ 10 ∧
    calldatacopy ({ baseFrame with stack := [5, 99, 0], gas_left := 10 } : Frame) =
      .ok { baseFrame with stack := [], gas_left := 7, pc := 1 } :=
  ⟨by decide, calldatacopy_zero_size
    ({ baseFrame with stack := [5, 99, 0], gas_left := 10 } : Frame) 5 99 [] rfl (by decide)⟩

/-- C5: SELFDESTRUCT pops the beneficiary, adds the originator balance to
the beneficiary balance and only then zeroes the originator balance (so a
self-beneficiary ends with balance 0), queues the originator for deletion,
clears running, and charges no gas (gas_left is untouched in the result). -/
theorem selfdestruct_spec (evm : Frame) (w : Nat) (rest : List Nat)
    (hstack : evm.stack = w :: rest) :
    selfdestruct evm = .ok { evm with
      stack := rest
      env := { evm.env with state := selfdestruct_state evm.env.state (to_address w) evm.message.current_target }
      accounts_to_delete := evm.accounts_to_delete.insert evm.message.current_target
      running := false } ∧
    (get_account (selfdestruct_state evm.env.state (to_address w) evm.message.current_target)
      evm.message.current_target).balance = 0 ∧
    (to_address w ≠ evm.message.current_target →
      (get_account (selfdestruct_state evm.env.state (to_address w) evm.message.current_target)
        (to_address w)).balance =
      (get_account evm.env.state (to_address w)).balance +
        (get_account evm.env.state evm.message.current_target).balance) := by
  refine ⟨?_, ?_, ?_⟩
  · simp [selfdestruct, Bind.bind, Except.bind, pop, hstack, Pure.pure, Except.pure,
      selfdestruct_state]
  · simp [get_account, set_account_balance, selfdestruct_state]
  · intro hne
    simp [get_account, set_account_balance, selfdestruct_state, hne]


/-- Witness for selfdestruct_spec: account 5 with balance 100
self-destructs naming itself as beneficiary; afterwards its balance is 0,
it is queued for deletion, running is cleared and gas_left is still 9. -/
theorem selfdestruct_spec_witness :
    selfdestruct exFrameC5 = .ok { exFrameC5 with
      stack := []
      env := { exFrameC5.env with state := selfdestruct_state exStateC5 5 5 }
      accounts_to_delete := [5]
      running := false } ∧
    (get_account (selfdestruct_state exStateC5 5 5) 5).balance = 0 :=
  ⟨(selfdestruct_spec exFrameC5 5 [] rfl).1, (selfdestruct_spec exFrameC5 5 [] rfl).2.1⟩


/-- The zero-padded 32-byte calldata window equals the pointwise
default-zero read of 32 bytes. -/
theorem ljust_window (data : List Nat) (i : Nat) :
    ljust ((data.drop i).take 32) 32 = (List.range 32).map fun j => data.getD (i + j) 0 := by
  apply List.ext_getElem
  · simp [ljust]
  · intro n h1 h2
    simp only [List.getElem_map, List.getElem_range, ljust]
    by_cases hcase : n < ((data.drop i).take 32).length
    · rw [List.getElem_append_left hcase]
      have hin : i + n < data.length := by
        simp [List.length_take, List.length_drop] at hcase
        omega
      rw [List.getElem_take, List.getElem_drop, List.getD_eq_getElem _ _ hin]
    · rw [List.getElem_append_right (Nat.le_of_not_lt hcase), List.getElem_replicate]
      have hout : data.length ≤ i + n := by
        simp only [List.length_take, List.length_drop] at hcase
        have h32 : n < 32 := by simpa using h2
        omega
      rw [List.getD_eq_default _ _ hout]

/-- Folding big-endian conversion over zero bytes yields zero. -/
theorem from_be_bytes_zeros (n : Nat) : from_be_bytes (List.replicate n 0) = 0 := by
  induction n with
  | zero => rfl
  | succ k ih => simpa [from_be_bytes, List.replicate_succ] using ih

/-- Reading a calldata word at or beyond the end of calldata yields zero. -/
theorem spec_calldata_word_zero (data : List Nat) (i : Nat)
    (h : data.length ≤ i) : spec_calldata_word data i = 0 := by
  have hrep : (List.range 32).map (fun j => data.getD (i + j) 0) = List.replicate 32 0 := by
    apply List.eq_replicate_of_mem
    intro b hb
    simp only [List.mem_map, List.mem_range] at hb
    obtain ⟨j, hj, rfl⟩ := hb
    exact List.getD_eq_default _ _ (by omega)
  rw [spec_calldata_word, hrep, from_be_bytes_zeros]

/-- C7: CALLDATALOAD pushes the big-endian interpretation of the 32 bytes
of calldata starting at the popped index, reading zero beyond the end of
calldata (index arithmetic cannot wrap because it is done on unbounded
integers); past-the-end reads give 0, and for calldata 0xaa at index 0 the
result is 0xaa followed by 31 zero bytes. -/
theorem calldataload_spec (evm : Frame) (i : Nat) (rest : List Nat)
    (hstack : evm.stack = i :: rest)
    (hgas : ¬ evm.gas_left < GAS_VERY_LOW)
    (hroom : rest.length < 1024) :
    (calldataload evm = .ok { evm with
      stack := spec_calldata_word evm.message.data i :: rest
      gas_left := evm.gas_left - GAS_VERY_LOW
      pc := evm.pc + 1 }) ∧
    (evm.message.data.length ≤ i → spec_calldata_word evm.message.data i = 0) ∧
    spec_calldata_word [170] 0 = 170 * 256 ^ 31 := by
  refine ⟨?_, fun h => spec_calldata_word_zero _ _ h, by decide⟩
  simp [calldataload, Bind.bind, Except.bind, pop, hstack, subtract_gas, hgas, push, hroom,
    Pure.pure, Except.pure, spec_calldata_word, ljust_window]

/-- Witness for calldataload_spec: calldata 0xaa read at index 0 pushes
0xaa followed by 31 zero bytes. -/
theorem calldataload_spec_witness :
    calldataload ({ baseFrame with
                    stack := [0]
                    gas_left := 3
                    message := { baseMessage with data := [170] } } : Frame) =
      .ok { baseFrame with
            stack := [170 * 256 ^ 31]
            gas_left := 0
            pc := 1
            message := { baseMessage with data := [170] } } :=
  (calldataload_spec ({ baseFrame with
                        stack := [0]
                        gas_left := 3
                        message := { baseMessage with data := [170] } } : Frame) 0 [] rfl
    (by decide) (by decide)).1


/-- C8: the copy-opcode gas computation is overflow-checked: the modelled
u256_safe_multiply and u256_safe_add raise the supplied exception exactly
when the product or sum leaves the U256 range, and whenever the composite
copy cost of CALLDATACOPY, CODECOPY or EXTCODECOPY overflows the U256 range
the opcode halts with OutOfGas, with gas_left untouched rather than a
silently wrapped charge. -/
theorem copy_gas_overflow_checked (evm : Frame) (x y a b c d : Nat) (rest : List Nat) :
    (U256_CEIL ≤ x * y → u256_safe_multiply x y .OutOfGasError = .error .OutOfGasError) ∧
    (U256_CEIL ≤ x + y → u256_safe_add x y .OutOfGasError = .error .OutOfGasError) ∧
    (evm.stack = a :: b :: c :: rest →
      U256_CEIL ≤ GAS_VERY_LOW + GAS_COPY * (ceil32 c / 32) →
      calldatacopy evm = .error (.OutOfGasError, { evm with stack := rest }) ∧
      codecopy evm = .error (.OutOfGasError, { evm with stack := rest })) ∧
    (evm.stack = d :: a :: b :: c :: rest →
      U256_CEIL ≤ GAS_EXTERNAL + GAS_COPY * (ceil32 c / 32) →
      extcodecopy evm = .error (.OutOfGasError, { evm with stack := rest })) := by
  refine ⟨fun h => ?_, fun h => ?_, fun hs h => ⟨?_, ?_⟩, fun hs h => ?_⟩
  · simp [u256_safe_multiply, Nat.not_lt.mpr h]
  · simp [u256_safe_add, Nat.not_lt.mpr h]
  · by_cases hm : GAS_COPY * (ceil32 c / 32) < U256_CEIL
    · simp [calldatacopy, Bind.bind, Except.bind, pop, hs, u256_safe_multiply, hm,
        liftE, u256_safe_add, Nat.not_lt.mpr h]
    · simp [calldatacopy, Bind.bind, Except.bind, pop, hs, u256_safe_multiply, hm, liftE]
  · by_cases hm : GAS_COPY * (ceil32 c / 32) < U256_CEIL
    · simp [codecopy, Bind.bind, Except.bind, pop, hs, u256_safe_multiply, hm,
        liftE, u256_safe_add, Nat.not_lt.mpr h]
    · simp [codecopy, Bind.bind, Except.bind, pop, hs, u256_safe_multiply, hm, liftE]
  · by_cases hm : GAS_COPY * (ceil32 c / 32) < U256_CEIL
    · simp [extcodecopy, Bind.bind, Except.bind, pop, hs, u256_safe_multiply, hm,
        liftE, u256_safe_add, Nat.not_lt.mpr h]
    · simp [extcodecopy, Bind.bind, Except.bind, pop, hs, u256_safe_multiply, hm, liftE]

/-- Witness for copy_gas_overflow_checked: with a size argument of 2 to the
260, the copy cost overflows the U256 range and CALLDATACOPY halts with
OutOfGas, leaving gas_left at its entry value 5. -/
theorem copy_gas_overflow_checked_witness :
    U256_CEIL ≤ GAS_VERY_LOW + GAS_COPY * (ceil32 (2 ^ 260) / 32) ∧
    calldatacopy ({ baseFrame with stack := [0, 0, 2 ^ 260], gas_left := 5 } : Frame) =
      .error (.OutOfGasError, { baseFrame with stack := [], gas_left := 5 }) :=
  ⟨by decide,
    ((copy_gas_overflow_checked
      ({ baseFrame with stack := [0, 0, 2 ^ 260], gas_left := 5 } : Frame)
      0 0 0 0 (2 ^ 260) 0 []).2.2.1 rfl (by decide)).1⟩


/-- C4: CREATE whose sender balance is below the popped endowment pushes 0,
leaves the world state (hence the sender nonce) untouched, runs no child
frame, and consumes exactly GAS_CREATE plus the memory expansion cost of
the region [off, off+sz). -/
theorem create_insufficient_balance (pcm : Message → Env → Evm)
    (ca : Nat → Nat → Nat) (evm : Frame) (endowment off sz : Nat) (rest : List Nat)
    (hstack : evm.stack = endowment :: off :: sz :: rest)
    (hrest : rest.length < 1024)
    (hgas : ¬ evm.gas_left < GAS_CREATE)
    (hmem : memory_expansion_cost evm.memory.length off sz ≤ evm.gas_left - GAS_CREATE)
    (hbal : (get_account evm.env.state evm.message.current_target).balance < endowment) :
    create pcm ca evm = .ok { evm with
      stack := 0 :: rest
      memory := evm.memory ++ List.replicate
        (expanded_memory_length evm.memory.length off sz - evm.memory.length) 0
      gas_left := evm.gas_left - GAS_CREATE - memory_expansion_cost evm.memory.length off sz
      pc := evm.pc + 1 } := by
  have ht := touch_memory_ok
    ({ evm with stack := rest, gas_left := evm.gas_left - GAS_CREATE } : Frame) off sz
    (by simpa using hmem)
  have hbal' : (evm.env.state evm.message.current_target).balance < endowment := hbal
  simp [create, Bind.bind, Except.bind, pop, hstack, subtract_gas, hgas, ht,
    get_account, push, hbal', hrest, Pure.pure, Except.pure]


/-- C3: CREATE that passes the balance, nonce-ceiling and depth guards but
hits an address collision (nonzero nonce or nonzero code at the computed
address) pushes 0 and returns with gas_left equal to 0: the whole remaining
gas was transferred to the would-be child and is burned, while the sender
nonce increment is kept and no child frame is recorded. -/
theorem create_collision_burns_gas (pcm : Message → Env → Evm)
    (ca : Nat → Nat → Nat) (evm : Frame) (endowment off sz : Nat) (rest : List Nat)
    (hstack : evm.stack = endowment :: off :: sz :: rest)
    (hrest : rest.length < 1024)
    (hgas : ¬ evm.gas_left < GAS_CREATE)
    (hmem : memory_expansion_cost evm.memory.length off sz ≤ evm.gas_left - GAS_CREATE)
    (hbal : ¬ (evm.env.state evm.message.current_target).balance < endowment)
    (hnonce : ¬ (evm.env.state evm.message.current_target).nonce = 2 ^ 64 - 1)
    (hdepth : ¬ evm.message.depth + 1 > STACK_DEPTH_LIMIT)
    (hcol : account_has_code_or_nonce (increment_nonce evm.env.state evm.message.current_target)
      (ca evm.message.current_target
        ((increment_nonce evm.env.state evm.message.current_target
          evm.message.current_target).nonce - 1)) = true) :
    create pcm ca evm = .ok { evm with
      stack := 0 :: rest
      memory := evm.memory ++ List.replicate
        (expanded_memory_length evm.memory.length off sz - evm.memory.length) 0
      gas_left := 0
      pc := evm.pc + 1
      env := { evm.env with state := increment_nonce evm.env.state evm.message.current_target } } := by
  have ht := touch_memory_ok
    ({ evm with stack := rest, gas_left := evm.gas_left - GAS_CREATE } : Frame) off sz
    (by simpa using hmem)
  simp [create, Bind.bind, Except.bind, pop, hstack, subtract_gas, hgas, ht,
    get_account, push, hbal, hnonce, hdepth, hcol, hrest, Pure.pure, Except.pure]
  intro h
  exact absurd h (by simpa using hnonce)


/-- Witness for create_insufficient_balance: balance 10 against endowment
11 pushes 0 and consumes exactly GAS_CREATE, leaving 8000 of 40000 gas. -/
theorem create_insufficient_balance_witness :
    (get_account exStateC4 5).balance < 11 ∧
    create (fun _ _ => Evm.mk baseFrame) (fun _ _ => 0) exFrameC4 =
      .ok { exFrameC4 with stack := [0], gas_left := 8000, pc := 1 } :=
  ⟨by decide, create_insufficient_balance (fun _ _ => Evm.mk baseFrame) (fun _ _ => 0)
    exFrameC4 11 0 0 [] rfl (by decide) (by decide) (by decide) (by decide)⟩

/-- Witness for create_collision_burns_gas: the computed address 77 already
has nonce 1, so CREATE pushes 0 and all 1000 gas remaining after the
GAS_CREATE charge is burned (gas_left 0), while the nonce increment of the
creator is kept. -/
theorem create_collision_burns_gas_witness :
    account_has_code_or_nonce (increment_nonce exStateC3 5)
      ((fun _ _ => 77) 5 ((increment_nonce exStateC3 5 5).nonce - 1)) = true ∧
    create (fun _ _ => Evm.mk baseFrame) (fun _ _ => 77) exFrameC3 =
      .ok { exFrameC3 with
        stack := [0]
        gas_left := 0
        pc := 1
        env := { exFrameC3.env with state := increment_nonce exStateC3 5 } } :=
  ⟨by decide, create_collision_burns_gas (fun _ _ => Evm.mk baseFrame) (fun _ _ => 77)
    exFrameC3 0 0 0 [] rfl (by decide) (by decide) (by decide) (by decide) (by decide)
    (by decide) (by decide)⟩


/-- Characterization of the descend path of CALL: when the prelude succeeds
and both guards pass, the handler runs the child built from the popped
arguments, appends the child record with its gas zeroed, pushes the success
flag, copies the child output into memory unconditionally, merges logs only
on child success, and credits the child gas to the parent exactly once. -/
theorem call_descend (pm : Message → Env → Evm)
    (cgc : AccountState → Nat → Nat → Nat → Nat)
    (evm e1 e2 child : Frame) (g toW v inO inS outO outS : Nat) (rest : List Nat)
    (hstack : evm.stack = g :: toW :: v :: inO :: inS :: outO :: outS :: rest)
    (ht1 : touch_memory { evm with stack := rest } inO inS = .ok e1)
    (ht2 : touch_memory e1 outO outS = .ok e2)
    (hroom : e2.stack.length < 1024)
    (hfee : g + calculate_message_call_gas_stipend v < U256_CEIL)
    (hgas : ¬ e2.gas_left < cgc e2.env.state g (to_address toW) v)
    (hbal : ¬ (e2.env.state e2.message.current_target).balance < v)
    (hdepth : ¬ e2.message.depth + 1 > STACK_DEPTH_LIMIT)
    (hchild : (pm
      { caller := e2.message.current_target
        target := some (to_address toW)
        gas := g + calculate_message_call_gas_stipend v
        value := v
        data := memory_read_bytes e2 inO inS
        code := (e2.env.state (to_address toW)).code
        current_target := to_address toW
        depth := e2.message.depth + 1
        code_address := some (to_address toW) } e2.env).core = child) :
    call pm cgc evm = .ok { e2 with
      pc := e2.pc + 1
      stack := (if child.has_erred then 0 else 1) :: e2.stack
      memory := write_bytes e2.memory outO (child.output.take (min outS child.output.length))
      gas_left := e2.gas_left - cgc e2.env.state g (to_address toW) v + child.gas_left
      logs := e2.logs ++ (if child.has_erred then [] else child.logs)
      children := e2.children ++ [Evm.mk { child with gas_left := 0 }]
      env := child.env } := by
  by_cases herr : child.has_erred <;>
    simp [call, Bind.bind, Except.bind, pop, hstack, ht1, ht2, liftE, u256_safe_add,
      hfee, subtract_gas, hgas, get_account, hbal, hdepth, push, hroom, hchild, herr,
      memory_write, Pure.pure, Except.pure]


/-- Characterization of the descend path of CALLCODE: like CALL, but the
target and executing account stay the caller's current_target and the code
comes from the popped code_address. -/
theorem callcode_descend (pm : Message → Env → Evm)
    (cgc : AccountState → Nat → Nat → Nat → Nat)
    (evm e1 e2 child : Frame) (g cW v inO inS outO outS : Nat) (rest : List Nat)
    (hstack : evm.stack = g :: cW :: v :: inO :: inS :: outO :: outS :: rest)
    (ht1 : touch_memory { evm with stack := rest } inO inS = .ok e1)
    (ht2 : touch_memory e1 outO outS = .ok e2)
    (hroom : e2.stack.length < 1024)
    (hfee : g + calculate_message_call_gas_stipend v < U256_CEIL)
    (hgas : ¬ e2.gas_left < cgc e2.env.state g evm.message.current_target v)
    (hbal : ¬ (e2.env.state e2.message.current_target).balance < v)
    (hdepth : ¬ e2.message.depth + 1 > STACK_DEPTH_LIMIT)
    (hchild : (pm
      { caller := e2.message.current_target
        target := some evm.message.current_target
        gas := g + calculate_message_call_gas_stipend v
        value := v
        data := memory_read_bytes e2 inO inS
        code := (e2.env.state (to_address cW)).code
        current_target := evm.message.current_target
        depth := e2.message.depth + 1
        code_address := some (to_address cW) } e2.env).core = child) :
    callcode pm cgc evm = .ok { e2 with
      pc := e2.pc + 1
      stack := (if child.has_erred then 0 else 1) :: e2.stack
      memory := write_bytes e2.memory outO (child.output.take (min outS child.output.length))
      gas_left := e2.gas_left - cgc e2.env.state g evm.message.current_target v + child.gas_left
      logs := e2.logs ++ (if child.has_erred then [] else child.logs)
      children := e2.children ++ [Evm.mk { child with gas_left := 0 }]
      env := child.env } := by
  by_cases herr : child.has_erred <;>
    simp [callcode, Bind.bind, Except.bind, pop, hstack, ht1, ht2, liftE, u256_safe_add,
      hfee, subtract_gas, hgas, get_account, hbal, hdepth, push, hroom, hchild, herr,
      memory_write, Pure.pure, Except.pure]

/-- Characterization of the descend path of CREATE: when the prelude
succeeds, the guards pass and there is no address collision, the handler
increments the creator nonce, transfers all remaining gas to the child,
runs it, appends the child record with its gas zeroed, pushes the new
address (or 0 on child failure), merges logs only on child success, and
sets the parent gas to the child's returned gas. -/
theorem create_descend (pcm : Message → Env → Evm) (ca : Nat → Nat → Nat)
    (evm e1 child : Frame) (endowment off sz : Nat) (rest : List Nat)
    (hstack : evm.stack = endowment :: off :: sz :: rest)
    (hgas : ¬ evm.gas_left < GAS_CREATE)
    (ht : touch_memory { evm with stack := rest, gas_left := evm.gas_left - GAS_CREATE }
      off sz = .ok e1)
    (hroom : e1.stack.length < 1024)
    (hbal : ¬ (e1.env.state e1.message.current_target).balance < endowment)
    (hnonce : ¬ (e1.env.state e1.message.current_target).nonce = 2 ^ 64 - 1)
    (hdepth : ¬ e1.message.depth + 1 > STACK_DEPTH_LIMIT)
    (hnocol : account_has_code_or_nonce (increment_nonce e1.env.state e1.message.current_target)
      (ca e1.message.current_target
        ((increment_nonce e1.env.state e1.message.current_target
          e1.message.current_target).nonce - 1)) = false)
    (hchild : (pcm
      { caller := e1.message.current_target
        target := none
        gas := e1.gas_left
        value := endowment
        data := []
        code := memory_read_bytes e1 off sz
        current_target := ca e1.message.current_target
          ((increment_nonce e1.env.state e1.message.current_target
            e1.message.current_target).nonce - 1)
        depth := e1.message.depth + 1
        code_address := none }
      { e1.env with state := increment_nonce e1.env.state e1.message.current_target }).core =
        child) :
    create pcm ca evm = .ok { e1 with
      pc := e1.pc + 1
      stack := (if child.has_erred then 0 else child.message.current_target) :: e1.stack
      gas_left := child.gas_left
      logs := e1.logs ++ (if child.has_erred then [] else child.logs)
      children := e1.children ++ [Evm.mk { child with gas_left := 0 }]
      env := child.env } := by
  have hnonce' : ¬ (e1.env.state e1.message.current_target).nonce = 18446744073709551615 := by
    simpa using hnonce
  by_cases herr : child.has_erred <;>
    simp [create, Bind.bind, Except.bind, pop, hstack, ht, subtract_gas, hgas,
      get_account, hbal, hnonce', hdepth, hnocol, push, hroom, hchild, herr,
      Pure.pure, Except.pure]


/-- C1 (corrected): the CALL depth guard rejects exactly when depth + 1
exceeds STACK_DEPTH_LIMIT = 1024, i.e. at depth at least 1024 — not at
depth 1023, where the child is executed.  In the rejecting case, a CALL
that reaches the guard phase with the balance check passing pushes 0
without running any child code (children unchanged) and refunds
message_call_gas (the popped gas argument plus the stipend) onto the
parent's gas_left. -/
theorem call_depth_guard_reject (pm : Message → Env → Evm)
    (cgc : AccountState → Nat → Nat → Nat → Nat)
    (evm e1 e2 : Frame) (g toW v inO inS outO outS : Nat) (rest : List Nat)
    (hstack : evm.stack = g :: toW :: v :: inO :: inS :: outO :: outS :: rest)
    (ht1 : touch_memory { evm with stack := rest } inO inS = .ok e1)
    (ht2 : touch_memory e1 outO outS = .ok e2)
    (hroom : e2.stack.length < 1024)
    (hfee : g + calculate_message_call_gas_stipend v < U256_CEIL)
    (hgas : ¬ e2.gas_left < cgc e2.env.state g (to_address toW) v)
    (hbal : ¬ (e2.env.state e2.message.current_target).balance < v)
    (hdepth : e2.message.depth + 1 > STACK_DEPTH_LIMIT) :
    call pm cgc evm = .ok { e2 with
      pc := e2.pc + 1
      stack := 0 :: e2.stack
      gas_left := e2.gas_left - cgc e2.env.state g (to_address toW) v
        + (g + calculate_message_call_gas_stipend v) } ∧
    e2.stack = rest ∧ e2.message = evm.message ∧ e2.children = evm.children := by
  obtain ⟨-, he1⟩ := touch_memory_ok_elim _ _ _ _ ht1
  obtain ⟨-, he2⟩ := touch_memory_ok_elim _ _ _ _ ht2
  refine ⟨?_, by simp [he2, he1], by simp [he2, he1], by simp [he2, he1]⟩
  simp [call, Bind.bind, Except.bind, pop, hstack, ht1, ht2, liftE, u256_safe_add,
    hfee, subtract_gas, hgas, get_account, hbal, hdepth, push, hroom,
    Pure.pure, Except.pure]

/-- Counterexample to C1 as stated: a concrete CALL in a frame at depth
1023 whose guard phase is reached with the balance covering the value does
NOT push 0 — the depth guard only fires above 1024, so the child is run,
its record is appended to children, and 1 is pushed. -/
theorem call_depth_1023_runs_child :
    call (fun m e => Evm.mk { baseFrame with message := m, env := e, gas_left := 7 })
      (fun _ _ _ _ => 0)
      ({ baseFrame with
          stack := [0, 0, 0, 0, 0, 0, 0]
          message := { baseMessage with depth := 1023 } } : Frame) =
      .ok { baseFrame with
        pc := 1
        stack := [1]
        gas_left := 7
        message := { baseMessage with depth := 1023 }
        children := [Evm.mk { baseFrame with
          message := { baseMessage with target := some 0, depth := 1024, code_address := some 0 } }] } ∧
    (1 : Nat) ≠ 0 :=
  ⟨rfl, by decide⟩

/-- Witness for call_depth_guard_reject: a concrete CALL at depth 1024 with
gas argument 9, fee 2 and 5 gas left pushes 0 and ends with
5 - 2 + 9 = 12 gas, running no child. -/
theorem call_depth_guard_reject_witness :
    ({ baseFrame with
        stack := ([] : List Nat)
        gas_left := 5
        message := { baseMessage with depth := 1024 } } : Frame).message.depth + 1 >
      STACK_DEPTH_LIMIT ∧
    call (fun m e => Evm.mk { baseFrame with message := m, env := e })
      (fun _ _ _ _ => 2)
      ({ baseFrame with
          stack := [9, 0, 0, 0, 0, 0, 0]
          gas_left := 5
          message := { baseMessage with depth := 1024 } } : Frame) =
      .ok { baseFrame with
        stack := [0]
        gas_left := 12
        pc := 1
        message := { baseMessage with depth := 1024 } } :=
  ⟨by decide,
    (call_depth_guard_reject (fun m e => Evm.mk { baseFrame with message := m, env := e })
      (fun _ _ _ _ => 2)
      ({ baseFrame with
          stack := [9, 0, 0, 0, 0, 0, 0]
          gas_left := 5
          message := { baseMessage with depth := 1024 } } : Frame)
      ({ baseFrame with
          stack := ([] : List Nat)
          gas_left := 5
          message := { baseMessage with depth := 1024 } } : Frame)
      ({ baseFrame with
          stack := ([] : List Nat)
          gas_left := 5
          message := { baseMessage with depth := 1024 } } : Frame)
      9 0 0 0 0 0 0 [] rfl rfl rfl (by decide) (by decide) (by decide) (by decide)
      (by decide)).1⟩


/-- C9: whenever CALL, CALLCODE or CREATE runs a child frame and returns
normally, the child record appended to children carries gas_left 0, while
the child's unspent gas has been credited to the parent's gas_left exactly
once (for CREATE the parent's own gas is 0 at that point, so it becomes
exactly the child's returned gas): summing gas over the stored frame tree
cannot double-count the child's refund. -/
theorem child_gas_zeroed_after_credit (pm pcm : Message → Env → Evm)
    (cgc : AccountState → Nat → Nat → Nat → Nat) (ca : Nat → Nat → Nat)
    (evm e1 e2 child : Frame) (g toW v inO inS outO outS endowment off sz : Nat)
    (rest : List Nat) :
    (evm.stack = g :: toW :: v :: inO :: inS :: outO :: outS :: rest →
      touch_memory { evm with stack := rest } inO inS = .ok e1 →
      touch_memory e1 outO outS = .ok e2 →
      e2.stack.length < 1024 →
      g + calculate_message_call_gas_stipend v < U256_CEIL →
      ¬ e2.gas_left < cgc e2.env.state g (to_address toW) v →
      ¬ (e2.env.state e2.message.current_target).balance < v →
      ¬ e2.message.depth + 1 > STACK_DEPTH_LIMIT →
      (pm
        { caller := e2.message.current_target
          target := some (to_address toW)
          gas := g + calculate_message_call_gas_stipend v
          value := v
          data := memory_read_bytes e2 inO inS
          code := (e2.env.state (to_address toW)).code
          current_target := to_address toW
          depth := e2.message.depth + 1
          code_address := some (to_address toW) } e2.env).core = child →
      call pm cgc evm = .ok { e2 with
        pc := e2.pc + 1
        stack := (if child.has_erred then 0 else 1) :: e2.stack
        memory := write_bytes e2.memory outO (child.output.take (min outS child.output.length))
        gas_left := e2.gas_left - cgc e2.env.state g (to_address toW) v + child.gas_left
        logs := e2.logs ++ (if child.has_erred then [] else child.logs)
        children := e2.children ++ [Evm.mk { child with gas_left := 0 }]
        env := child.env }) ∧
    (evm.stack = g :: toW :: v :: inO :: inS :: outO :: outS :: rest →
      touch_memory { evm with stack := rest } inO inS = .ok e1 →
      touch_memory e1 outO outS = .ok e2 →
      e2.stack.length < 1024 →
      g + calculate_message_call_gas_stipend v < U256_CEIL →
      ¬ e2.gas_left < cgc e2.env.state g evm.message.current_target v →
      ¬ (e2.env.state e2.message.current_target).balance < v →
      ¬ e2.message.depth + 1 > STACK_DEPTH_LIMIT →
      (pm
        { caller := e2.message.current_target
          target := some evm.message.current_target
          gas := g + calculate_message_call_gas_stipend v
          value := v
          data := memory_read_bytes e2 inO inS
          code := (e2.env.state (to_address toW)).code
          current_target := evm.message.current_target
          depth := e2.message.depth + 1
          code_address := some (to_address toW) } e2.env).core = child →
      callcode pm cgc evm = .ok { e2 with
        pc := e2.pc + 1
        stack := (if child.has_erred then 0 else 1) :: e2.stack
        memory := write_bytes e2.memory outO (child.output.take (min outS child.output.length))
        gas_left := e2.gas_left - cgc e2.env.state g evm.message.current_target v + child.gas_left
        logs := e2.logs ++ (if child.has_erred then [] else child.logs)
        children := e2.children ++ [Evm.mk { child with gas_left := 0 }]
        env := child.env }) ∧
    (evm.stack = endowment :: off :: sz :: rest →
      ¬ evm.gas_left < GAS_CREATE →
      touch_memory { evm with stack := rest, gas_left := evm.gas_left - GAS_CREATE }
        off sz = .ok e1 →
      e1.stack.length < 1024 →
      ¬ (e1.env.state e1.message.current_target).balance < endowment →
      ¬ (e1.env.state e1.message.current_target).nonce = 2 ^ 64 - 1 →
      ¬ e1.message.depth + 1 > STACK_DEPTH_LIMIT →
      account_has_code_or_nonce (increment_nonce e1.env.state e1.message.current_target)
        (ca e1.message.current_target
          ((increment_nonce e1.env.state e1.message.current_target
            e1.message.current_target).nonce - 1)) = false →
      (pcm
        { caller := e1.message.current_target
          target := none
          gas := e1.gas_left
          value := endowment
          data := []
          code := memory_read_bytes e1 off sz
          current_target := ca e1.message.current_target
            ((increment_nonce e1.env.state e1.message.current_target
              e1.message.current_target).nonce - 1)
          depth := e1.message.depth + 1
          code_address := none }
        { e1.env with state := increment_nonce e1.env.state e1.message.current_target }).core =
          child →
      create pcm ca evm = .ok { e1 with
        pc := e1.pc + 1
        stack := (if child.has_erred then 0 else child.message.current_target) :: e1.stack
        gas_left := child.gas_left
        logs := e1.logs ++ (if child.has_erred then [] else child.logs)
        children := e1.children ++ [Evm.mk { child with gas_left := 0 }]
        env := child.env }) :=
  ⟨fun h1 h2 h3 h4 h5 h6 h7 h8 h9 =>
      call_descend pm cgc evm e1 e2 child g toW v inO inS outO outS rest
        h1 h2 h3 h4 h5 h6 h7 h8 h9,
    fun h1 h2 h3 h4 h5 h6 h7 h8 h9 =>
      callcode_descend pm cgc evm e1 e2 child g toW v inO inS outO outS rest
        h1 h2 h3 h4 h5 h6 h7 h8 h9,
    fun h1 h2 h3 h4 h5 h6 h7 h8 h9 =>
      create_descend pcm ca evm e1 child endowment off sz rest
        h1 h2 h3 h4 h5 h6 h7 h8 h9⟩

/-- Witness for child_gas_zeroed_after_credit: a concrete CALL whose child
returns with 100 gas; the parent ends with 5 - 2 + 100 = 103 gas and the
stored child record has gas_left 0. -/
theorem child_gas_zeroed_after_credit_witness :
    call (fun m e => Evm.mk { baseFrame with message := m, env := e, gas_left := 100 })
      (fun _ _ _ _ => 2)
      ({ baseFrame with stack := [9, 0, 0, 0, 0, 0, 0], gas_left := 5 } : Frame) =
      .ok { baseFrame with
        pc := 1
        stack := [1]
        gas_left := 103
        children := [Evm.mk { baseFrame with
          message := { baseMessage with target := some 0, gas := 9, depth := 1, code_address := some 0 } }] } ∧
    (Evm.mk { baseFrame with
      message := { baseMessage with target := some 0, gas := 9, depth := 1, code_address := some 0 } }).core.gas_left = 0 :=
  ⟨(child_gas_zeroed_after_credit
      (fun m e => Evm.mk { baseFrame with message := m, env := e, gas_left := 100 })
      (fun m e => Evm.mk baseFrame) (fun _ _ _ _ => 2) (fun _ _ => 0)
      ({ baseFrame with stack := [9, 0, 0, 0, 0, 0, 0], gas_left := 5 } : Frame)
      ({ baseFrame with stack := ([] : List Nat), gas_left := 5 } : Frame)
      ({ baseFrame with stack := ([] : List Nat), gas_left := 5 } : Frame)
      ({ baseFrame with
          gas_left := 100
          message := { baseMessage with target := some 0, gas := 9, depth := 1, code_address := some 0 } } : Frame)
      9 0 0 0 0 0 0 0 0 0 []).1
    rfl rfl rfl (by decide) (by decide) (by decide) (by decide) (by decide) rfl, rfl⟩


/-- C10: for CALL and CALLCODE that run a child frame,
min(out_size, len(child.output)) bytes of the child output are written into
memory at the output offset regardless of whether the child halted
exceptionally (in which case the parent pushes 0), while the child logs are
merged into the parent only when the child succeeded. -/
theorem call_output_copy_unconditional (pm : Message → Env → Evm)
    (cgc : AccountState → Nat → Nat → Nat → Nat)
    (evm e1 e2 child : Frame) (g toW v inO inS outO outS : Nat) (rest : List Nat) :
    (evm.stack = g :: toW :: v :: inO :: inS :: outO :: outS :: rest →
      touch_memory { evm with stack := rest } inO inS = .ok e1 →
      touch_memory e1 outO outS = .ok e2 →
      e2.stack.length < 1024 →
      g + calculate_message_call_gas_stipend v < U256_CEIL →
      ¬ e2.gas_left < cgc e2.env.state g (to_address toW) v →
      ¬ (e2.env.state e2.message.current_target).balance < v →
      ¬ e2.message.depth + 1 > STACK_DEPTH_LIMIT →
      (pm
        { caller := e2.message.current_target
          target := some (to_address toW)
          gas := g + calculate_message_call_gas_stipend v
          value := v
          data := memory_read_bytes e2 inO inS
          code := (e2.env.state (to_address toW)).code
          current_target := to_address toW
          depth := e2.message.depth + 1
          code_address := some (to_address toW) } e2.env).core = child →
      ∃ e', call pm cgc evm = .ok e' ∧
        e'.memory = write_bytes e2.memory outO
          (child.output.take (min outS child.output.length)) ∧
        e'.logs = e2.logs ++ (if child.has_erred then [] else child.logs) ∧
        e'.stack = (if child.has_erred then 0 else 1) :: e2.stack) ∧
    (evm.stack = g :: toW :: v :: inO :: inS :: outO :: outS :: rest →
      touch_memory { evm with stack := rest } inO inS = .ok e1 →
      touch_memory e1 outO outS = .ok e2 →
      e2.stack.length < 1024 →
      g + calculate_message_call_gas_stipend v < U256_CEIL →
      ¬ e2.gas_left < cgc e2.env.state g evm.message.current_target v →
      ¬ (e2.env.state e2.message.current_target).balance < v →
      ¬ e2.message.depth + 1 > STACK_DEPTH_LIMIT →
      (pm
        { caller := e2.message.current_target
          target := some evm.message.current_target
          gas := g + calculate_message_call_gas_stipend v
          value := v
          data := memory_read_bytes e2 inO inS
          code := (e2.env.state (to_address toW)).code
          current_target := evm.message.current_target
          depth := e2.message.depth + 1
          code_address := some (to_address toW) } e2.env).core = child →
      ∃ e', callcode pm cgc evm = .ok e' ∧
        e'.memory = write_bytes e2.memory outO
          (child.output.take (min outS child.output.length)) ∧
        e'.logs = e2.logs ++ (if child.has_erred then [] else child.logs) ∧
        e'.stack = (if child.has_erred then 0 else 1) :: e2.stack) :=
  ⟨fun h1 h2 h3 h4 h5 h6 h7 h8 h9 =>
    ⟨_, call_descend pm cgc evm e1 e2 child g toW v inO inS outO outS rest
      h1 h2 h3 h4 h5 h6 h7 h8 h9, rfl, rfl, rfl⟩,
   fun h1 h2 h3 h4 h5 h6 h7 h8 h9 =>
    ⟨_, callcode_descend pm cgc evm e1 e2 child g toW v inO inS outO outS rest
      h1 h2 h3 h4 h5 h6 h7 h8 h9, rfl, rfl, rfl⟩⟩

/-- Witness for call_output_copy_unconditional: a concrete CALL whose child
halts exceptionally with output 0x09 and one log record: the parent pushes
0 and drops the child log, yet the byte 0x09 is still written to memory at
offset 0. -/
theorem call_output_copy_unconditional_witness :
    ∃ e',
      call (fun m e => Evm.mk { baseFrame with
              message := m, env := e, has_erred := true, output := [9], logs := [3] })
          (fun _ _ _ _ => 0)
          ({ baseFrame with stack := [0, 0, 0, 0, 0, 0, 1], gas_left := 10 } : Frame) =
        .ok e' ∧
      e'.memory = 9 :: List.replicate 31 0 ∧
      e'.logs = [] ∧
      e'.stack = [0] :=
  (call_output_copy_unconditional
    (fun m e => Evm.mk { baseFrame with
      message := m, env := e, has_erred := true, output := [9], logs := [3] })
    (fun _ _ _ _ => 0)
    ({ baseFrame with stack := [0, 0, 0, 0, 0, 0, 1], gas_left := 10 } : Frame)
    ({ baseFrame with stack := ([] : List Nat), gas_left := 10 } : Frame)
    ({ baseFrame with
        stack := ([] : List Nat)
        gas_left := 7
        memory := List.replicate 32 0 } : Frame)
    ({ baseFrame with
        has_erred := true
        output := [9]
        logs := [3]
        message := { baseMessage with target := some 0, depth := 1, code_address := some 0 } } : Frame)
    0 0 0 0 0 0 1 []).1
    rfl rfl rfl (by decide) (by decide) (by decide) (by decide) (by decide) rfl

end EvmSpec
